import Mathlib

/-!
Shallow embedding of the gergy-mcp core services, translated from
src/shared/base_mcp_server.py and src/shared/services/ of the repository.
Python floats are modelled as rationals (all arithmetic in scope is exact
decimal arithmetic), datetimes as integers (seconds), fallible calls as
Except values, and the Python value space (which includes None) as an
explicit PyVal type whose pyNone constructor plays the role of None.
-/

deriving instance DecidableEq for Except

namespace Gergy

/-- Python str.lower, as used on provider strings: lowercases the
character list (defined directly on the character data so concrete
instances reduce in the kernel). -/
def pyLower (s : String) : String := ⟨s.data.map Char.toLower⟩

/-- Model of Python exception values flowing through the services.
The toolExecutionError constructor represents the wrapper class named by
the spec error taxonomy; no such class exists in the source, and the
theorems below show the code never produces it. -/
inductive PyErr : Type
  | valueError (msg : String)
  | toolExecutionError (inner : PyErr)
  | other (msg : String)
deriving DecidableEq

/-- Model of a Python runtime value as stored in the cache; pyNone models
the Python None object. -/
inductive PyVal : Type
  | pyNone
  | pyStr (s : String)
  | pyInt (n : Int)
deriving DecidableEq

/-- True exactly on the spec ToolExecutionError wrapper constructor. -/
def PyErr.isToolExecutionError : PyErr → Bool
  | .toolExecutionError _ => true
  | _ => false

/-! ## Cost tracking service (src/shared/services/cost_tracking_service.py) -/

/-- APIProvider enum, lines 14-20 of cost_tracking_service.py. -/
inductive APIProvider : Type
  | openai
  | anthropic
  | google
  | azure
  | custom
deriving DecidableEq

/-- Python enum value construction APIProvider(s): returns the member with
that value or raises ValueError. Used at line 86 of the source as
APIProvider(provider.lower()). -/
def APIProvider.fromString (s : String) : Except PyErr APIProvider :=
  if s = "openai" then .ok .openai
  else if s = "anthropic" then .ok .anthropic
  else if s = "google" then .ok .google
  else if s = "azure" then .ok .azure
  else if s = "custom" then .ok .custom
  else .error (.valueError (s ++ " is not a valid APIProvider"))

/-- CostRates dataclass, lines 22-28. -/
structure CostRates : Type where
  inputCostPer1k : ℚ
  outputCostPer1k : ℚ
  provider : APIProvider
  model : String
deriving DecidableEq

/-- Rate table built by _initialize_cost_rates, lines 53-73. -/
def initializeCostRates : List (String × CostRates) :=
  [ ("openai_gpt-4", ⟨0.03, 0.06, .openai, "gpt-4"⟩),
    ("openai_gpt-4-turbo", ⟨0.01, 0.03, .openai, "gpt-4-turbo"⟩),
    ("openai_gpt-3.5-turbo", ⟨0.001, 0.002, .openai, "gpt-3.5-turbo"⟩),
    ("anthropic_claude-3-opus", ⟨0.015, 0.075, .anthropic, "claude-3-opus"⟩),
    ("anthropic_claude-3-sonnet", ⟨0.003, 0.015, .anthropic, "claude-3-sonnet"⟩),
    ("anthropic_claude-3-haiku", ⟨0.00025, 0.00125, .anthropic, "claude-3-haiku"⟩),
    ("google_gemini-pro", ⟨0.001, 0.002, .google, "gemini-pro"⟩),
    ("google_gemini-ultra", ⟨0.01, 0.03, .google, "gemini-ultra"⟩),
    ("azure_gpt-4", ⟨0.03, 0.06, .azure, "gpt-4"⟩),
    ("azure_gpt-35-turbo", ⟨0.001, 0.002, .azure, "gpt-35-turbo"⟩) ]

/-- APIUsage record, lines 30-41 (timestamp and metadata omitted: they are
wall-clock data and free-form payload, irrelevant to every claim in scope). -/
structure APIUsage : Type where
  serverName : String
  provider : APIProvider
  model : String
  endpoint : String
  inputTokens : ℕ
  outputTokens : ℕ
  estimatedCost : ℚ
deriving DecidableEq

/-- Cost computation and usage-record creation of track_api_usage,
lines 75-121 (the subsequent _store_usage and _check_budget_limits calls
are database and alert side effects modelled separately below; the
function raises before reaching them only at the enum conversion). -/
def trackApiUsage (serverName provider model endpoint : String)
    (inputTokens outputTokens : ℕ) : Except PyErr APIUsage :=
  match APIProvider.fromString (pyLower provider) with
  | .error e => .error e
  | .ok providerEnum =>
    let rateKey := pyLower provider ++ "_" ++ model
    let rates : CostRates :=
      match initializeCostRates.lookup rateKey with
      | some r => r
      | none => ⟨0.001, 0.002, providerEnum, model⟩
    let inputCost := ((inputTokens : ℚ) / 1000) * rates.inputCostPer1k
    let outputCost := ((outputTokens : ℚ) / 1000) * rates.outputCostPer1k
    .ok ⟨serverName, providerEnum, model, endpoint, inputTokens, outputTokens,
         inputCost + outputCost⟩

/-- The four alert thresholds of _check_budget_limits, lines 149-154:
fraction, the string the Python f-string renders the float to (used in the
alerts_sent key), and the alert message. -/
def budgetThresholds : List (ℚ × String × String) :=
  [ (0.5, "0.5", "50% of daily budget used"),
    (0.8, "0.8", "80% of daily budget used"),
    (0.9, "0.9", "90% of daily budget used"),
    (1.0, "1.0", "Daily budget limit exceeded!") ]

/-- The loop body of _check_budget_limits, lines 156-161, over an explicit
threshold list: for each threshold in order, if the daily cost meets the
limit fraction and the key has not fired, emit the alert key and add it to
the sent set. Returns (fired alert keys in order, updated sent set). -/
def checkThresholdList (limit dailyCost : ℚ) (serverName : String) :
    List (ℚ × String × String) → List String → List String × List String
  | [], sent => ([], sent)
  | t :: ts, sent =>
    let key := serverName ++ "_" ++ t.2.1
    if limit * t.1 ≤ dailyCost ∧ key ∉ sent then
      let rest := checkThresholdList limit dailyCost serverName ts (sent ++ [key])
      (key :: rest.1, rest.2)
    else
      checkThresholdList limit dailyCost serverName ts sent

/-- _check_budget_limits, lines 144-161, with the daily usage total (a
database aggregate in the source) passed in explicitly. -/
def checkBudgetLimits (limit : ℚ) (serverName : String) (dailyCost : ℚ)
    (sent : List String) : List String × List String :=
  checkThresholdList limit dailyCost serverName budgetThresholds sent

/-- A run of tracked usage events between resets: each event carries the
server name and the daily usage total observed by _check_budget_limits at
that point. Collects every alert key fired across the run. -/
def runBudgetChecks (limit : ℚ) :
    List (String × ℚ) → List String → List String × List String
  | [], sent => ([], sent)
  | (server, cost) :: evs, sent =>
    let step := checkBudgetLimits limit server cost sent
    let rest := runBudgetChecks limit evs step.2
    (step.1 ++ rest.1, rest.2)

/-- reset_daily_alerts, lines 305-308: clears the whole alerts_sent set. -/
def resetDailyAlerts (_sent : List String) : List String := []

/-! ## Pattern recognition service
(src/shared/services/pattern_recognition_service.py) -/

/-- Pattern template, the shape of each entry built by
_initialize_pattern_templates, lines 35-83; timeWindow in seconds. -/
structure PatternTemplate : Type where
  name : String
  triggers : List String
  domains : List String
  timeWindow : ℤ
  minDomains : ℕ
  confidenceThreshold : ℚ
deriving DecidableEq

/-- Template financial_planning_event, lines 38-46 (time window 24 hours
in seconds). -/
def financialPlanningEvent : PatternTemplate :=
  ⟨"financial_planning_event",
   ["budget", "expense", "investment", "savings", "financial goal"],
   ["financial", "family", "lifestyle"], 86400, 2, 0.7⟩

/-- Template home_improvement_project, lines 47-55 (7 days). -/
def homeImprovementProject : PatternTemplate :=
  ⟨"home_improvement_project",
   ["renovation", "repair", "improvement", "maintenance", "contractor"],
   ["home", "financial", "family"], 604800, 2, 0.6⟩

/-- Template family_activity_planning, lines 56-64 (3 days). -/
def familyActivityPlanning : PatternTemplate :=
  ⟨"family_activity_planning",
   ["vacation", "trip", "event", "celebration", "activity"],
   ["family", "financial", "lifestyle"], 259200, 2, 0.8⟩

/-- Template career_development, lines 65-73 (14 days). -/
def careerDevelopment : PatternTemplate :=
  ⟨"career_development",
   ["promotion", "job", "career", "skill", "training", "certification"],
   ["professional", "financial", "lifestyle"], 1209600, 2, 0.7⟩

/-- Template health_lifestyle_change, lines 74-82 (5 days). -/
def healthLifestyleChange : PatternTemplate :=
  ⟨"health_lifestyle_change",
   ["health", "fitness", "diet", "exercise", "wellness"],
   ["lifestyle", "family", "financial"], 432000, 2, 0.6⟩

/-- The five built-in templates of _initialize_pattern_templates,
lines 35-83. -/
def patternTemplates : List PatternTemplate :=
  [ financialPlanningEvent, homeImprovementProject, familyActivityPlanning,
    careerDevelopment, healthLifestyleChange ]

/-- One trigger-history entry as appended by analyze_conversation,
lines 99-105 (content summary and metadata omitted: free-form payload). The
triggers field is the deduplicated keyword list the source stores. -/
structure TriggerHistoryEntry : Type where
  domain : String
  triggers : List String
  timestamp : ℤ
deriving DecidableEq

/-- Detected Pattern dataclass, lines 15-24 (metadata omitted). -/
structure DetectedPattern : Type where
  name : String
  domains : Finset String
  triggers : Finset String
  confidence : ℚ
  frequency : ℕ
  lastSeen : ℤ
deriving DecidableEq

/-- Entries of the history within the template time window,
lines 164-169. -/
def recentHistory (t : PatternTemplate) (history : List TriggerHistoryEntry)
    (now : ℤ) : List TriggerHistoryEntry :=
  history.filter (fun e => now - t.timeWindow ≤ e.timestamp)

/-- Entries whose trigger set meets the template trigger set, the
condition of line 182. -/
def matchingEntries (t : PatternTemplate)
    (recent : List TriggerHistoryEntry) : List TriggerHistoryEntry :=
  recent.filter (fun e => (e.triggers.toFinset ∩ t.triggers.toFinset).card ≠ 0)

/-- The triggered_domains set accumulated at line 183. -/
def triggeredDomains (t : PatternTemplate)
    (recent : List TriggerHistoryEntry) : Finset String :=
  ((matchingEntries t recent).map (·.domain)).toFinset

/-- Length of the matched_triggers list accumulated at line 184 (each
matching entry contributes the size of its intersection with the template
trigger set). -/
def triggerFrequency (t : PatternTemplate)
    (recent : List TriggerHistoryEntry) : ℕ :=
  ((matchingEntries t recent).map
    (fun e => (e.triggers.toFinset ∩ t.triggers.toFinset).card)).sum

/-- The confidence computation of lines 193-198. -/
def templateConfidence (t : PatternTemplate)
    (recent : List TriggerHistoryEntry) : ℚ :=
  let domainScore := min ((triggeredDomains t recent).card / (t.domains.length : ℚ)) 1
  let triggerScore := min ((triggerFrequency t recent) / (t.triggers.length : ℚ)) 1
  domainScore * 0.6 + triggerScore * 0.4

/-- The deduplicated matched trigger set stored on the returned pattern,
line 206. -/
def matchedTriggerSet (t : PatternTemplate)
    (recent : List TriggerHistoryEntry) : Finset String :=
  (matchingEntries t recent).foldr
    (fun e s => (e.triggers.toFinset ∩ t.triggers.toFinset) ∪ s) ∅

/-- _check_pattern_template, lines 153-215. -/
def checkPatternTemplate (t : PatternTemplate)
    (history : List TriggerHistoryEntry) (now : ℤ) : Option DetectedPattern :=
  let recent := recentHistory t history now
  if recent.isEmpty then none
  else if (triggeredDomains t recent).card < t.minDomains then none
  else
    let confidence := templateConfidence t recent
    if confidence < t.confidenceThreshold then none
    else some ⟨t.name, triggeredDomains t recent, matchedTriggerSet t recent,
               confidence, triggerFrequency t recent,
               ((recent.map (·.timestamp)).max?).getD 0⟩

/-- _detect_patterns, lines 139-151: every template of the catalog is
checked against the session history. -/
def detectPatterns (history : List TriggerHistoryEntry) (now : ℤ) :
    List DetectedPattern :=
  patternTemplates.filterMap (fun t => checkPatternTemplate t history now)

/-- The persistence step of analyze_conversation, lines 110-113: of the
detected (returned) patterns, those with confidence at least 0.6 are
written to the knowledge store. -/
def persistedPatterns (history : List TriggerHistoryEntry) (now : ℤ) :
    List DetectedPattern :=
  (detectPatterns history now).filter (fun p => 0.6 ≤ p.confidence)

/-! ## Cache service (src/shared/services/cache_service.py), local-cache
backend (the deterministic fallback path the source takes when the Redis
client is absent; the Redis path has identical setex/TTL semantics). -/

/-- CacheEntry dataclass, lines 16-25. -/
structure CacheEntry : Type where
  key : String
  value : PyVal
  expiresAt : ℤ
  domain : String
  accessCount : ℕ
  createdAt : ℤ
  lastAccessed : ℤ
deriving DecidableEq

/-- The local cache dict keyed by namespaced cache key. -/
def CacheStore : Type := String → Option CacheEntry

/-- Default TTL of the service, line 34 (3600 seconds). -/
def defaultTtl : ℕ := 3600

/-- The Python expression ttl or self.default_ttl at line 124: None and 0
are both falsy, so both fall back to the default. -/
def effectiveTtl : Option ℕ → ℕ
  | none => defaultTtl
  | some t => if t = 0 then defaultTtl else t

/-- _generate_cache_key, lines 64-66. -/
def generateCacheKey (domain key : String) : String :=
  "gergy:" ++ domain ++ ":" ++ key

/-- The set operation, lines 114-155, local path: stores a fresh entry
under the namespaced key with expiry now + ttl. -/
def cacheSet (store : CacheStore) (now : ℤ) (key : String) (value : PyVal)
    (domain : String) (ttl : Option ℕ) : CacheStore :=
  let cacheKey := generateCacheKey domain key
  let expiresAt := now + (effectiveTtl ttl : ℤ)
  fun k => if k = cacheKey then
    some ⟨cacheKey, value, expiresAt, domain, 0, now, now⟩
  else store k

/-- The get operation, lines 76-112, local path: an unexpired entry is a
hit (access count bumped) returning the stored value; an expired entry is
deleted and a miss; an absent key is a miss. Python returns None on a
miss, so the result is a PyVal with pyNone standing for None. -/
def cacheGet (store : CacheStore) (now : ℤ) (key domain : String) :
    PyVal × CacheStore :=
  let cacheKey := generateCacheKey domain key
  match store cacheKey with
  | some entry =>
    if now < entry.expiresAt then
      (entry.value,
       fun k => if k = cacheKey then
         some { entry with accessCount := entry.accessCount + 1,
                           lastAccessed := now }
       else store k)
    else
      (.pyNone, fun k => if k = cacheKey then none else store k)
  | none => (.pyNone, store)

/-- get_or_set, lines 204-230: a cached value that is not None is
returned; otherwise the producer runs (its exceptions propagate), its
result is stored and returned. -/
def getOrSet (store : CacheStore) (now : ℤ) (key : String)
    (producer : Except PyErr PyVal) (domain : String) (ttl : Option ℕ) :
    Except PyErr (PyVal × CacheStore) :=
  let hit := cacheGet store now key domain
  if hit.1 ≠ PyVal.pyNone then .ok (hit.1, hit.2)
  else
    match producer with
    | .ok v => .ok (v, cacheSet hit.2 now key v domain ttl)
    | .error e => .error e

/-! ## Tool dispatch pipeline (src/shared/base_mcp_server.py) -/

/-- The wrapped tool handler built by _wrap_tool_handler, lines 197-235.
Each pipeline step is an effectful call whose outcome is passed in:
usage tracking (line 205), pattern analysis (lines 208-212), the domain
handler (line 215), result caching (line 218) and knowledge write-back
(line 221). The single try/except chains the steps in order; the first
exception of any step reaches the except clause, which increments the
error counter and re-raises the same exception (lines 225-228). Returns
the propagated outcome and the new error counter. -/
def wrappedHandler {α : Type} (track analyze : Except PyErr Unit)
    (handler : Except PyErr α) (cacheStep knowledge : Except PyErr Unit)
    (errorCount : ℕ) : Except PyErr α × ℕ :=
  let body : Except PyErr α := do
    track
    analyze
    let r ← handler
    cacheStep
    knowledge
    pure r
  match body with
  | .ok r => (.ok r, errorCount)
  | .error e => (.error e, errorCount + 1)

/-! ## Concrete instances used by witnesses and counterexamples -/

/-- The estimated cost a tracked call produces (zero when the call
raises), read off the trackApiUsage result. -/
def trackedCost (serverName provider model endpoint : String)
    (inTok outTok : ℕ) : ℚ :=
  match trackApiUsage serverName provider model endpoint inTok outTok with
  | .ok u => u.estimatedCost
  | .error _ => 0

/-- Empty local cache used for concrete instances. -/
def emptyStore : CacheStore := fun _ => none

/-- Local cache holding the Python None value under the namespaced key
for domain d and key k, unexpired until time 100. -/
def noneStore : CacheStore := fun k =>
  if k = generateCacheKey "d" "k" then
    some ⟨generateCacheKey "d" "k", PyVal.pyNone, 100, "d", 0, 0, 0⟩
  else none

/-- Session history matching financial_planning_event with two triggered
domains and three matched trigger occurrences. -/
def exampleHistoryC6 : List TriggerHistoryEntry :=
  [ ⟨"financial", ["budget", "expense"], 0⟩,
    ⟨"family", ["budget"], 0⟩ ]

/-- Session history matching home_improvement_project with two triggered
domains and five matched trigger occurrences (full trigger score). -/
def exampleHistoryW : List TriggerHistoryEntry :=
  [ ⟨"home", ["renovation", "repair", "maintenance"], 0⟩,
    ⟨"financial", ["contractor", "improvement"], 0⟩ ]

/-- The pattern home_improvement_project detects on exampleHistoryW at
time 0. -/
def pW : DetectedPattern :=
  ⟨"home_improvement_project",
   triggeredDomains homeImprovementProject
     (recentHistory homeImprovementProject exampleHistoryW 0),
   matchedTriggerSet homeImprovementProject
     (recentHistory homeImprovementProject exampleHistoryW 0),
   templateConfidence homeImprovementProject
     (recentHistory homeImprovementProject exampleHistoryW 0),
   triggerFrequency homeImprovementProject
     (recentHistory homeImprovementProject exampleHistoryW 0),
   (((recentHistory homeImprovementProject exampleHistoryW 0).map
     (·.timestamp)).max?).getD 0⟩

/-- Session history whose family_activity_planning confidence is 0.64,
inside the band [0.6, 0.8) below that template threshold. -/
def exampleHistoryC3 : List TriggerHistoryEntry :=
  [ ⟨"family", ["vacation", "trip"], 0⟩,
    ⟨"financial", ["vacation"], 0⟩ ]

/-- Session history carrying a single domain with several triggers. -/
def exampleHistoryC7 : List TriggerHistoryEntry :=
  [ ⟨"family", ["vacation"], 0⟩,
    ⟨"family", ["trip", "event"], -100⟩ ]

/-! ## Claim C1 (dispatch pipeline fault tolerance) -/

/-- Claim C1, counterexample: the claim states that a failure in the
usage-tracking step does not abort the invocation and that the domain
handler result is still returned. In the wrapped handler of the source
the first failing step reaches the single except clause and is re-raised,
so with a failing tracking step and a handler that would return 42, the
caller sees the tracking error (and the error counter is bumped), not the
handler result. -/
theorem wrappedHandler_tracking_failure_aborts_cex :
    wrappedHandler (Except.error (PyErr.valueError "usage tracking failed"))
        (Except.ok ()) (Except.ok (PyVal.pyInt 42)) (Except.ok ())
        (Except.ok ()) 0
      = (Except.error (PyErr.valueError "usage tracking failed"), 1)
    ∧ (Except.error (PyErr.valueError "usage tracking failed")
        : Except PyErr PyVal) ≠ Except.ok (PyVal.pyInt 42) := by
  exact ⟨rfl, by decide⟩

/-- Concrete sanity instance for the C2 evaluation below: pyLower leaves
the provider string the pipeline passes unchanged. -/
theorem pyLower_internal : pyLower "internal" = "internal" := by decide

/-- Claim C1 amended: a failure raised by any auxiliary pipeline step
(usage tracking, pattern analysis, result caching, knowledge write-back)
aborts the invocation: the error counter is incremented and that step
error propagates to the caller, so the domain handler result is returned
unchanged only when every pipeline step succeeds. -/
theorem wrappedHandler_step_error_propagation :
    ∀ {α : Type} (e : PyErr) (analyze : Except PyErr Unit)
      (handler : Except PyErr α) (cacheStep knowledge : Except PyErr Unit)
      (n : ℕ) (r : α),
      wrappedHandler (Except.error e) analyze handler cacheStep knowledge n
        = (Except.error e, n + 1)
      ∧ wrappedHandler (Except.ok ()) (Except.error e) handler cacheStep
          knowledge n = (Except.error e, n + 1)
      ∧ wrappedHandler (Except.ok ()) (Except.ok ()) (Except.ok r)
          (Except.error e) knowledge n = (Except.error e, n + 1)
      ∧ wrappedHandler (Except.ok ()) (Except.ok ()) (Except.ok r)
          (Except.ok ()) (Except.error e) n = (Except.error e, n + 1)
      ∧ wrappedHandler (Except.ok ()) (Except.ok ()) (Except.ok r)
          (Except.ok ()) (Except.ok ()) n = (Except.ok r, n) := by
  intro α e analyze handler cacheStep knowledge n r
  exact ⟨rfl, rfl, rfl, rfl, rfl⟩

/-! ## Claim C2 (unknown provider never fails usage tracking) -/

/-- Claim C2: the dispatch pipeline calls track_api_usage with provider
"internal" on every tool call, and the claim states this never fails and
falls back to default rates. The source first evaluates
APIProvider(provider.lower()), which raises ValueError for "internal"
(not an enum member) before the rate-table fallback is reached, so no
usage event is created. This evaluates the code at exactly the arguments
_track_tool_usage passes. -/
theorem trackApiUsage_internal_provider_raises :
    trackApiUsage "gergy-financial" "internal" "tool-call" "search_knowledge"
        25 100
      = Except.error (PyErr.valueError "internal is not a valid APIProvider")
    := by
  decide

/-! ## Claim C5 (handler errors wrapped in ToolExecutionError) -/

/-- Claim C5, counterexample: the claim states a raising domain handler
propagates as a ToolExecutionError wrapping the original exception. The
source except clause re-raises the original exception object itself; the
propagated error below is the original valueError and not a
toolExecutionError wrapper. -/
theorem handler_error_unwrapped_cex :
    wrappedHandler (Except.ok ()) (Except.ok ())
        (Except.error (PyErr.valueError "handler failure")
          : Except PyErr PyVal)
        (Except.ok ()) (Except.ok ()) 0
      = (Except.error (PyErr.valueError "handler failure"), 1)
    ∧ (PyErr.valueError "handler failure").isToolExecutionError = false := by
  exact ⟨rfl, rfl⟩

/-- Claim C5 amended: for every tool invocation whose domain handler
raises, the error counter is incremented and the original exception
propagates to the caller unchanged (no ToolExecutionError wrapper exists
in the source). -/
theorem wrappedHandler_handler_error_original :
    ∀ {α : Type} (e : PyErr) (cacheStep knowledge : Except PyErr Unit)
      (n : ℕ),
      wrappedHandler (Except.ok ()) (Except.ok ())
          (Except.error e : Except PyErr α) cacheStep knowledge n
        = (Except.error e, n + 1) := by
  intro α e cacheStep knowledge n
  rfl

/-! ## Claim C8 (cache set/get TTL round trip) -/

/-- Claim C8: after a set, a get before the entry expiry time
(set time plus effective TTL) returns the identical value, and a get
after the expiry time returns None (a miss). -/
theorem cache_set_get_ttl_semantics :
    ∀ (store : CacheStore) (now : ℤ) (key : String) (value : PyVal)
      (domain : String) (ttl : Option ℕ) (tGet : ℤ),
      (tGet < now + (effectiveTtl ttl : ℤ) →
        (cacheGet (cacheSet store now key value domain ttl) tGet key
            domain).1 = value)
      ∧ (now + (effectiveTtl ttl : ℤ) < tGet →
        (cacheGet (cacheSet store now key value domain ttl) tGet key
            domain).1 = PyVal.pyNone) := by
  intro store now key value domain ttl tGet
  constructor
  · intro h
    simp [cacheGet, cacheSet, h]
  · intro h
    have hnot : ¬ tGet < now + (effectiveTtl ttl : ℤ) := by omega
    simp [cacheGet, cacheSet, hnot]

/-- Claim C8 witness at a concrete store, entry and times. -/
theorem cache_set_get_ttl_witness :
    (cacheGet (cacheSet emptyStore 0 "k" (PyVal.pyStr "v") "d" (some 10)) 5
        "k" "d").1 = PyVal.pyStr "v"
    ∧ (cacheGet (cacheSet emptyStore 0 "k" (PyVal.pyStr "v") "d" (some 10))
        20 "k" "d").1 = PyVal.pyNone :=
  ⟨(cache_set_get_ttl_semantics emptyStore 0 "k" (PyVal.pyStr "v") "d"
      (some 10) 5).1 (by decide),
   (cache_set_get_ttl_semantics emptyStore 0 "k" (PyVal.pyStr "v") "d"
      (some 10) 20).2 (by decide)⟩

/-! ## Claim C10 (a stored None behaves as a miss in get_or_set) -/

/-- Claim C10: when the stored value under a key is None, get returns
None exactly as for an absent key, so get_or_set always invokes the
producer: a succeeding producer has its value returned and re-stored
under the key, and a failing producer propagates its error even though
an entry for the key exists. -/
theorem cached_none_treated_as_miss :
    ∀ (store : CacheStore) (now : ℤ) (key domain : String)
      (entry : CacheEntry),
      store (generateCacheKey domain key) = some entry →
      entry.value = PyVal.pyNone →
      (cacheGet store now key domain).1 = PyVal.pyNone
      ∧ (∀ store2 : CacheStore,
          store2 (generateCacheKey domain key) = none →
          (cacheGet store2 now key domain).1 = PyVal.pyNone)
      ∧ (∀ (v : PyVal) (ttl : Option ℕ), ∃ st : CacheStore,
          getOrSet store now key (Except.ok v) domain ttl
            = Except.ok (v, st)
          ∧ st (generateCacheKey domain key)
              = some ⟨generateCacheKey domain key, v,
                      now + (effectiveTtl ttl : ℤ), domain, 0, now, now⟩)
      ∧ (∀ (e : PyErr) (ttl : Option ℕ),
          getOrSet store now key (Except.error e) domain ttl
            = Except.error e) := by
  intro store now key domain entry hst hval
  have hget : (cacheGet store now key domain).1 = PyVal.pyNone := by
    simp only [cacheGet, hst]
    split <;> simp [hval]
  refine ⟨hget, ?_, ?_, ?_⟩
  · intro store2 h2
    simp [cacheGet, h2]
  · intro v ttl
    refine ⟨cacheSet (cacheGet store now key domain).2 now key v domain ttl,
            ?_, ?_⟩
    · simp [getOrSet, hget]
    · simp [cacheSet]
  · intro e ttl
    simp [getOrSet, hget]

/-- Claim C10 witness at a concrete store holding None. -/
theorem cached_none_treated_as_miss_witness :
    (cacheGet noneStore 50 "k" "d").1 = PyVal.pyNone
    ∧ (cacheGet emptyStore 50 "k" "d").1 = PyVal.pyNone
    ∧ (∃ st : CacheStore,
        getOrSet noneStore 50 "k" (Except.ok (PyVal.pyInt 7)) "d" none
          = Except.ok (PyVal.pyInt 7, st)
        ∧ st (generateCacheKey "d" "k")
            = some ⟨generateCacheKey "d" "k", PyVal.pyInt 7,
                    50 + (effectiveTtl none : ℤ), "d", 0, 50, 50⟩)
    ∧ getOrSet noneStore 50 "k"
        (Except.error (PyErr.valueError "producer failed")) "d" none
        = Except.error (PyErr.valueError "producer failed") := by
  have h := cached_none_treated_as_miss noneStore 50 "k" "d"
    ⟨generateCacheKey "d" "k", PyVal.pyNone, 100, "d", 0, 0, 0⟩
    (by decide) rfl
  exact ⟨h.1, h.2.1 emptyStore rfl, h.2.2.1 (PyVal.pyInt 7) none,
         h.2.2.2 (PyErr.valueError "producer failed") none⟩

/-! ## Claim C9 (cost formula and monotonicity) -/

/-- Rates found by a lookup in a table of pointwise nonnegative rates are
nonnegative. -/
theorem lookup_rates_nonneg :
    ∀ (l : List (String × CostRates)),
      (∀ p ∈ l, 0 ≤ p.2.inputCostPer1k ∧ 0 ≤ p.2.outputCostPer1k) →
      ∀ (k : String) (r : CostRates), l.lookup k = some r →
        0 ≤ r.inputCostPer1k ∧ 0 ≤ r.outputCostPer1k := by
  intro l
  induction l with
  | nil => intro _ k r h; simp [List.lookup] at h
  | cons hd tl ih =>
    intro hall k r h
    rcases hd with ⟨hk, hr⟩
    simp only [List.lookup] at h
    cases hbe : (k == hk) with
    | true =>
      rw [hbe] at h
      simp only [Option.some.injEq] at h
      subst h
      exact hall (hk, hr) (List.mem_cons_self _ _)
    | false =>
      rw [hbe] at h
      exact ih (fun p hp => hall p (List.mem_cons_of_mem _ hp)) k r h

/-- Every rate in the table of _initialize_cost_rates is nonnegative. -/
theorem initializeCostRates_nonneg :
    ∀ p ∈ initializeCostRates,
      0 ≤ p.2.inputCostPer1k ∧ 0 ≤ p.2.outputCostPer1k := by
  intro p hp
  fin_cases hp <;> norm_num [initializeCostRates]

/-- Claim C9: for a (provider, model) pair present in the rate table the
tracked cost is inputTokens/1000 times the input rate plus
outputTokens/1000 times the output rate, and the cost is monotonically
non-decreasing in each token count. -/
theorem tracked_cost_formula_monotone :
    ∀ (serverName provider model endpoint : String) (r : CostRates)
      (inTok outTok inTok2 outTok2 : ℕ),
      initializeCostRates.lookup (pyLower provider ++ "_" ++ model)
        = some r →
      (∀ p : APIProvider,
        APIProvider.fromString (pyLower provider) = Except.ok p →
        trackApiUsage serverName provider model endpoint inTok outTok
          = Except.ok ⟨serverName, p, model, endpoint, inTok, outTok,
              ((inTok : ℚ) / 1000) * r.inputCostPer1k
                + ((outTok : ℚ) / 1000) * r.outputCostPer1k⟩)
      ∧ (inTok ≤ inTok2 →
          trackedCost serverName provider model endpoint inTok outTok
            ≤ trackedCost serverName provider model endpoint inTok2 outTok)
      ∧ (outTok ≤ outTok2 →
          trackedCost serverName provider model endpoint inTok outTok
            ≤ trackedCost serverName provider model endpoint inTok
                outTok2) := by
  intro serverName provider model endpoint r inTok outTok inTok2 outTok2
    hlook
  have hnn := lookup_rates_nonneg initializeCostRates
    initializeCostRates_nonneg _ r hlook
  refine ⟨?_, ?_, ?_⟩
  · intro p hp
    simp [trackApiUsage, hp, hlook]
  · intro hle
    cases hfs : APIProvider.fromString (pyLower provider) with
    | error e => simp [trackedCost, trackApiUsage, hfs]
    | ok p =>
      simp only [trackedCost, trackApiUsage, hfs, hlook]
      have hc : (inTok : ℚ) ≤ (inTok2 : ℚ) := by exact_mod_cast hle
      have h1000 : (0 : ℚ) < 1000 := by norm_num
      exact add_le_add_right
        (mul_le_mul_of_nonneg_right
          ((div_le_div_iff_of_pos_right h1000).mpr hc) hnn.1) _
  · intro hle
    cases hfs : APIProvider.fromString (pyLower provider) with
    | error e => simp [trackedCost, trackApiUsage, hfs]
    | ok p =>
      simp only [trackedCost, trackApiUsage, hfs, hlook]
      have hc : (outTok : ℚ) ≤ (outTok2 : ℚ) := by exact_mod_cast hle
      have h1000 : (0 : ℚ) < 1000 := by norm_num
      exact add_le_add_left
        (mul_le_mul_of_nonneg_right
          ((div_le_div_iff_of_pos_right h1000).mpr hc) hnn.2) _

/-- Claim C9 witness at the openai gpt-4 table entry. -/
theorem tracked_cost_formula_monotone_witness :
    trackApiUsage "gergy-financial" "openai" "gpt-4" "chat" 1000 2000
      = Except.ok ⟨"gergy-financial", APIProvider.openai, "gpt-4", "chat",
          1000, 2000,
          ((1000 : ℚ) / 1000) * (0.03 : ℚ)
            + ((2000 : ℚ) / 1000) * (0.06 : ℚ)⟩
    ∧ trackedCost "gergy-financial" "openai" "gpt-4" "chat" 1000 2000
        ≤ trackedCost "gergy-financial" "openai" "gpt-4" "chat" 1500 2000
    ∧ trackedCost "gergy-financial" "openai" "gpt-4" "chat" 1000 2000
        ≤ trackedCost "gergy-financial" "openai" "gpt-4" "chat" 1000 2500
    := by
  have h := tracked_cost_formula_monotone "gergy-financial" "openai" "gpt-4"
    "chat" ⟨0.03, 0.06, APIProvider.openai, "gpt-4"⟩ 1000 2000 1500 2500
    (by rfl)
  exact ⟨h.1 APIProvider.openai (by decide), h.2.1 (by decide),
         h.2.2 (by decide)⟩

/-! ## Claim C4 (budget alerts fire at most once per threshold) -/

/-- Within one _check_budget_limits pass: a key fires at most once (never
when already in the sent set), and the resulting sent set is the initial
one plus exactly the fired keys. -/
theorem checkThresholdList_count_mem :
    ∀ (limit cost : ℚ) (server : String)
      (ts : List (ℚ × String × String)) (sent : List String) (k : String),
      (checkThresholdList limit cost server ts sent).1.count k
        ≤ (if k ∈ sent then 0 else 1)
      ∧ (k ∈ (checkThresholdList limit cost server ts sent).2
          ↔ k ∈ sent ∨ k ∈ (checkThresholdList limit cost server ts sent).1)
    := by
  intro limit cost server ts
  induction ts with
  | nil => intro sent k; simp [checkThresholdList]
  | cons t ts ih =>
    intro sent k
    simp only [checkThresholdList]
    by_cases hc : limit * t.1 ≤ cost ∧ (server ++ "_" ++ t.2.1) ∉ sent
    · rw [if_pos hc]
      dsimp only
      set key := server ++ "_" ++ t.2.1 with hkey
      have h := ih (sent ++ [key]) k
      constructor
      · rw [List.count_cons]
        simp only [beq_iff_eq]
        by_cases hkk : key = k
        · subst hkk
          have hmem : key ∈ sent ++ [key] := by simp
          have h1 := h.1
          rw [if_pos hmem] at h1
          have hz :
              (checkThresholdList limit cost server ts
                (sent ++ [key])).1.count key = 0 := by omega
          rw [hz, if_pos rfl, if_neg hc.2]
        · have hne : k ≠ key := fun hx => hkk hx.symm
          have hmm : (k ∈ sent ++ [key]) ↔ k ∈ sent := by simp [hne]
          rw [if_neg hkk, add_zero]
          have h1 := h.1
          by_cases hks : k ∈ sent
          · rw [if_pos hks]
            rw [if_pos (hmm.mpr hks)] at h1
            exact h1
          · rw [if_neg hks]
            rw [if_neg (fun hx => hks (hmm.mp hx))] at h1
            exact h1
      · rw [h.2]
        simp only [List.mem_append, List.mem_singleton, List.mem_cons]
        tauto
    · rw [if_neg hc]
      exact ih sent k

/-- A threshold of the list whose limit fraction the daily cost meets,
and whose key is not yet in the sent set, has its key among the fired
alerts of the pass. -/
theorem checkThresholdList_fires :
    ∀ (limit cost : ℚ) (server : String)
      (ts : List (ℚ × String × String)) (sent : List String)
      (t : ℚ × String × String),
      t ∈ ts → limit * t.1 ≤ cost → (server ++ "_" ++ t.2.1) ∉ sent →
      (server ++ "_" ++ t.2.1)
        ∈ (checkThresholdList limit cost server ts sent).1 := by
  intro limit cost server ts
  induction ts with
  | nil => intro sent t ht; simp at ht
  | cons hd ts ih =>
    intro sent t ht hcross hnot
    simp only [checkThresholdList]
    rcases List.mem_cons.mp ht with rfl | hmem
    · rw [if_pos ⟨hcross, hnot⟩]
      exact List.mem_cons_self _ _
    · by_cases hc : limit * hd.1 ≤ cost ∧ (server ++ "_" ++ hd.2.1) ∉ sent
      · rw [if_pos hc]
        dsimp only
        by_cases heq : (server ++ "_" ++ t.2.1) = (server ++ "_" ++ hd.2.1)
        · rw [heq]
          exact List.mem_cons_self _ _
        · have hnot2 :
              (server ++ "_" ++ t.2.1)
                ∉ sent ++ [server ++ "_" ++ hd.2.1] := by
            simp [hnot, heq]
          exact List.mem_cons_of_mem _
            (ih (sent ++ [server ++ "_" ++ hd.2.1]) t hmem hcross hnot2)
      · rw [if_neg hc]
        exact ih sent t hmem hcross hnot

/-- Across a whole run of usage events: a key appears at most once among
all fired alerts (never when already sent), and the final sent set is the
initial one plus the fired keys. -/
theorem runBudgetChecks_count :
    ∀ (limit : ℚ) (events : List (String × ℚ)) (sent : List String)
      (k : String),
      (runBudgetChecks limit events sent).1.count k
        ≤ (if k ∈ sent then 0 else 1)
      ∧ (k ∈ (runBudgetChecks limit events sent).2
          ↔ k ∈ sent ∨ k ∈ (runBudgetChecks limit events sent).1) := by
  intro limit events
  induction events with
  | nil => intro sent k; simp [runBudgetChecks]
  | cons ev evs ih =>
    intro sent k
    rcases ev with ⟨server, cost⟩
    simp only [runBudgetChecks]
    have hstep := checkThresholdList_count_mem limit cost server
      budgetThresholds sent k
    have hrest := ih (checkBudgetLimits limit server cost sent).2 k
    have hstepC :
        (checkBudgetLimits limit server cost sent).1.count k
          ≤ (if k ∈ sent then 0 else 1) := hstep.1
    have hstepM :
        k ∈ (checkBudgetLimits limit server cost sent).2
          ↔ k ∈ sent ∨ k ∈ (checkBudgetLimits limit server cost sent).1 :=
      hstep.2
    constructor
    · rw [List.count_append]
      by_cases hks : k ∈ sent
      · rw [if_pos hks]
        have hk2 : k ∈ (checkBudgetLimits limit server cost sent).2 :=
          hstepM.mpr (Or.inl hks)
        have h1 := hstepC
        rw [if_pos hks] at h1
        have h2 := hrest.1
        rw [if_pos hk2] at h2
        omega
      · rw [if_neg hks]
        by_cases hkf : k ∈ (checkBudgetLimits limit server cost sent).1
        · have hk2 : k ∈ (checkBudgetLimits limit server cost sent).2 :=
            hstepM.mpr (Or.inr hkf)
          have h1 := hstepC
          rw [if_neg hks] at h1
          have h2 := hrest.1
          rw [if_pos hk2] at h2
          omega
        · have h1 : (checkBudgetLimits limit server cost sent).1.count k = 0 :=
            List.count_eq_zero.mpr hkf
          have hk2 : k ∉ (checkBudgetLimits limit server cost sent).2 := by
            rw [hstepM]
            push_neg
            exact ⟨hks, hkf⟩
          have h2 := hrest.1
          rw [if_neg hk2] at h2
          omega
    · rw [hrest.2, hstepM, List.mem_append]
      exact or_assoc

/-- Claim C4: starting from the empty fired set (as after a reset), any
sequence of tracked usage events fires the alert for a given
(server, threshold) key at most once; reset_daily_alerts clears the whole
fired set; and a usage event crossing a threshold right after a reset
fires that threshold again. -/
theorem budget_alert_once_per_threshold_until_reset :
    ∀ (limit : ℚ) (events : List (String × ℚ)) (server : String)
      (thr : ℚ) (thrStr msg : String) (cost : ℚ) (sent : List String),
      ((thr, thrStr, msg) ∈ budgetThresholds →
        (runBudgetChecks limit events []).1.count (server ++ "_" ++ thrStr)
          ≤ 1)
      ∧ resetDailyAlerts sent = []
      ∧ ((thr, thrStr, msg) ∈ budgetThresholds → limit * thr ≤ cost →
          (server ++ "_" ++ thrStr)
            ∈ (checkBudgetLimits limit server cost
                (resetDailyAlerts sent)).1) := by
  intro limit events server thr thrStr msg cost sent
  refine ⟨?_, rfl, ?_⟩
  · intro _
    have h := (runBudgetChecks_count limit events []
      (server ++ "_" ++ thrStr)).1
    simpa using h
  · intro hmem hcross
    exact checkThresholdList_fires limit cost server budgetThresholds []
      (thr, thrStr, msg) hmem hcross (by simp)

/-- Claim C4 witness: three events each at 90 percent of a budget of 10
fire the 0.8 alert exactly once across the run; after a reset the 0.8
alert fires again on the next crossing event. -/
theorem budget_alert_once_witness :
    (runBudgetChecks 10 [("srv", 9), ("srv", 9), ("srv", 9)] []).1.count
        ("srv" ++ "_" ++ "0.8") ≤ 1
    ∧ resetDailyAlerts ["srv_0.5", "srv_0.8"] = []
    ∧ ("srv" ++ "_" ++ "0.8")
        ∈ (checkBudgetLimits 10 "srv" 9
            (resetDailyAlerts ["srv_0.5", "srv_0.8"])).1 := by
  have h := budget_alert_once_per_threshold_until_reset 10
    [("srv", 9), ("srv", 9), ("srv", 9)] "srv" 0.8 "0.8"
    "80% of daily budget used" 9 ["srv_0.5", "srv_0.8"]
  refine ⟨h.1 ?hm, h.2.1, h.2.2 ?hm (by norm_num)⟩
  case hm => exact List.mem_cons_of_mem _ (List.mem_cons_self _ _)

/-! ## Claims C3, C6, C7 (pattern detection) -/

/-- A pattern returned by the template check carries exactly the
confidence of the source formula and meets the template threshold. -/
theorem checkPatternTemplate_some_spec :
    ∀ (t : PatternTemplate) (history : List TriggerHistoryEntry)
      (now : ℤ) (p : DetectedPattern),
      checkPatternTemplate t history now = some p →
      p.confidence = templateConfidence t (recentHistory t history now)
      ∧ t.confidenceThreshold ≤ p.confidence := by
  intro t history now p h
  simp only [checkPatternTemplate] at h
  by_cases h1 : (recentHistory t history now).isEmpty = true
  · rw [if_pos h1] at h
    exact Option.noConfusion h
  · rw [if_neg h1] at h
    by_cases h2 :
        (triggeredDomains t (recentHistory t history now)).card
          < t.minDomains
    · rw [if_pos h2] at h
      exact Option.noConfusion h
    · rw [if_neg h2] at h
      by_cases h3 :
          templateConfidence t (recentHistory t history now)
            < t.confidenceThreshold
      · rw [if_pos h3] at h
        exact Option.noConfusion h
      · rw [if_neg h3] at h
        rw [Option.some.injEq] at h
        subst h
        exact ⟨rfl, not_lt.mp h3⟩

/-- Every built-in template threshold is at least 0.6. -/
theorem patternTemplates_threshold_ge :
    ∀ t ∈ patternTemplates, (0.6 : ℚ) ≤ t.confidenceThreshold := by
  intro t ht
  fin_cases ht <;>
    norm_num [financialPlanningEvent, homeImprovementProject,
      familyActivityPlanning, careerDevelopment, healthLifestyleChange]

/-- Claim C7: a template demanding two distinct domains never matches a
history whose in-window entries all carry one single domain, no matter
how many triggers match. -/
theorem single_domain_never_matches :
    ∀ (t : PatternTemplate) (history : List TriggerHistoryEntry)
      (now : ℤ) (d : String),
      t.minDomains = 2 →
      (∀ e ∈ history, now - t.timeWindow ≤ e.timestamp → e.domain = d) →
      checkPatternTemplate t history now = none := by
  intro t history now d hmin hdom
  have hsub : triggeredDomains t (recentHistory t history now) ⊆ {d} := by
    intro x hx
    simp only [triggeredDomains, List.mem_toFinset, List.mem_map] at hx
    obtain ⟨e, he, rfl⟩ := hx
    simp only [matchingEntries, List.mem_filter] at he
    obtain ⟨her, _⟩ := he
    simp only [recentHistory, List.mem_filter, decide_eq_true_eq] at her
    obtain ⟨hehist, htime⟩ := her
    simp [Finset.mem_singleton, hdom e hehist htime]
  have hcard : (triggeredDomains t (recentHistory t history now)).card ≤ 1 := by
    calc (triggeredDomains t (recentHistory t history now)).card
        ≤ ({d} : Finset String).card := Finset.card_le_card hsub
      _ = 1 := Finset.card_singleton d
  simp only [checkPatternTemplate]
  by_cases h1 : (recentHistory t history now).isEmpty = true
  · rw [if_pos h1]
  · rw [if_neg h1, if_pos (by omega)]

/-- Claim C7 witness: family_activity_planning demands two domains and
never matches a single-domain history. -/
theorem single_domain_never_matches_witness :
    familyActivityPlanning.minDomains = 2
    ∧ checkPatternTemplate familyActivityPlanning exampleHistoryC7 0
        = none :=
  ⟨rfl, single_domain_never_matches familyActivityPlanning exampleHistoryC7
    0 "family" rfl (by decide)⟩

/-- Claim C6: every returned pattern carries confidence
0.6 * min(triggeredDomains / eligibleDomains, 1)
+ 0.4 * min(matchedTriggers / triggerKeywords, 1) and is returned only
when that confidence meets the template threshold; on the 5-trigger,
3-domain template financial_planning_event, a history with 2 triggered
domains and 3 matched trigger occurrences computes confidence 0.64. -/
theorem pattern_confidence_formula :
    ∀ (t : PatternTemplate) (history : List TriggerHistoryEntry) (now : ℤ)
      (p : DetectedPattern),
      (checkPatternTemplate t history now = some p →
        p.confidence
          = 0.6 * min
              (((triggeredDomains t (recentHistory t history now)).card : ℚ)
                / (t.domains.length : ℚ)) 1
            + 0.4 * min
              ((triggerFrequency t (recentHistory t history now) : ℚ)
                / (t.triggers.length : ℚ)) 1
        ∧ t.confidenceThreshold ≤ p.confidence)
      ∧ financialPlanningEvent.triggers.length = 5
      ∧ financialPlanningEvent.domains.length = 3
      ∧ (triggeredDomains financialPlanningEvent
          (recentHistory financialPlanningEvent exampleHistoryC6 0)).card = 2
      ∧ triggerFrequency financialPlanningEvent
          (recentHistory financialPlanningEvent exampleHistoryC6 0) = 3
      ∧ templateConfidence financialPlanningEvent
          (recentHistory financialPlanningEvent exampleHistoryC6 0)
          = 0.64 := by
  intro t history now p
  refine ⟨?_, rfl, rfl, by decide, by decide, ?_⟩
  · intro h
    have hs := checkPatternTemplate_some_spec t history now p h
    refine ⟨?_, hs.2⟩
    rw [hs.1]
    simp only [templateConfidence]
    ring
  · have hc : (triggeredDomains financialPlanningEvent
        (recentHistory financialPlanningEvent exampleHistoryC6 0)).card
          = 2 := by decide
    have hf : triggerFrequency financialPlanningEvent
        (recentHistory financialPlanningEvent exampleHistoryC6 0) = 3 := by
      decide
    simp only [templateConfidence]
    rw [hc, hf]
    norm_num [financialPlanningEvent, min_def]

/-- Claim C6 witness: home_improvement_project matches exampleHistoryW
and the returned confidence satisfies the formula and the threshold. -/
theorem pattern_confidence_formula_witness :
    checkPatternTemplate homeImprovementProject exampleHistoryW 0 = some pW
    ∧ pW.confidence
        = 0.6 * min
            (((triggeredDomains homeImprovementProject
              (recentHistory homeImprovementProject exampleHistoryW 0)).card
                : ℚ)
              / (homeImprovementProject.domains.length : ℚ)) 1
          + 0.4 * min
            ((triggerFrequency homeImprovementProject
              (recentHistory homeImprovementProject exampleHistoryW 0) : ℚ)
              / (homeImprovementProject.triggers.length : ℚ)) 1
    ∧ homeImprovementProject.confidenceThreshold ≤ pW.confidence := by
  have hconfW : templateConfidence homeImprovementProject
      (recentHistory homeImprovementProject exampleHistoryW 0) = 0.8 := by
    have hc : (triggeredDomains homeImprovementProject
        (recentHistory homeImprovementProject exampleHistoryW 0)).card
          = 2 := by decide
    have hf : triggerFrequency homeImprovementProject
        (recentHistory homeImprovementProject exampleHistoryW 0) = 5 := by
      decide
    simp only [templateConfidence]
    rw [hc, hf]
    norm_num [homeImprovementProject, min_def]
  have hsome : checkPatternTemplate homeImprovementProject exampleHistoryW 0
      = some pW := by
    simp only [checkPatternTemplate]
    rw [if_neg (by decide), if_neg (by decide),
        if_neg (by rw [hconfW]; norm_num [homeImprovementProject])]
    rfl
  have h := (pattern_confidence_formula homeImprovementProject
    exampleHistoryW 0 pW).1 hsome
  exact ⟨hsome, h.1, h.2⟩

/-- Claim C3, counterexample: on exampleHistoryC3 the template
family_activity_planning computes confidence 0.64, inside [0.6, 0.8)
below its own threshold 0.8; the claim says such a detection is
persisted, but the template check returns it as no match, so the
analysis detects nothing and persists nothing. -/
theorem midband_detection_not_persisted_cex :
    templateConfidence familyActivityPlanning
      (recentHistory familyActivityPlanning exampleHistoryC3 0) = 0.64
    ∧ (0.6 : ℚ) ≤ 0.64
    ∧ (0.64 : ℚ) < familyActivityPlanning.confidenceThreshold
    ∧ detectPatterns exampleHistoryC3 0 = []
    ∧ persistedPatterns exampleHistoryC3 0 = [] := by
  have hconf : templateConfidence familyActivityPlanning
      (recentHistory familyActivityPlanning exampleHistoryC3 0) = 0.64 := by
    have hc : (triggeredDomains familyActivityPlanning
        (recentHistory familyActivityPlanning exampleHistoryC3 0)).card
          = 2 := by decide
    have hf : triggerFrequency familyActivityPlanning
        (recentHistory familyActivityPlanning exampleHistoryC3 0) = 3 := by
      decide
    simp only [templateConfidence]
    rw [hc, hf]
    norm_num [familyActivityPlanning, min_def]
  have hfam : checkPatternTemplate familyActivityPlanning exampleHistoryC3 0
      = none := by
    simp only [checkPatternTemplate]
    rw [if_neg (by decide), if_neg (by decide),
        if_pos (by rw [hconf]; norm_num [familyActivityPlanning])]
  have h1 : checkPatternTemplate financialPlanningEvent exampleHistoryC3 0
      = none := by decide
  have h2 : checkPatternTemplate homeImprovementProject exampleHistoryC3 0
      = none := by decide
  have h3 : checkPatternTemplate careerDevelopment exampleHistoryC3 0
      = none := by decide
  have h4 : checkPatternTemplate healthLifestyleChange exampleHistoryC3 0
      = none := by decide
  have hdet : detectPatterns exampleHistoryC3 0 = [] := by
    simp [detectPatterns, patternTemplates, h1, h2, h3, h4, hfam]
  refine ⟨hconf, by norm_num, by norm_num [familyActivityPlanning], hdet,
    ?_⟩
  simp [persistedPatterns, hdet]

/-- Claim C3 amended: the persistence filter of analyze_conversation
operates on the already-returned detections, and every built-in template
threshold is at least 0.6, so the persisted patterns are exactly the
returned ones; a detection with confidence in [0.6, threshold) is
neither returned nor persisted. -/
theorem persistedPatterns_eq_detectPatterns :
    ∀ (history : List TriggerHistoryEntry) (now : ℤ),
      persistedPatterns history now = detectPatterns history now := by
  intro history now
  simp only [persistedPatterns]
  apply List.filter_eq_self.mpr
  intro p hp
  simp only [detectPatterns, List.mem_filterMap] at hp
  obtain ⟨t, ht, hcheck⟩ := hp
  have hth := patternTemplates_threshold_ge t ht
  have hcf := checkPatternTemplate_some_spec t history now p hcheck
  exact decide_eq_true (le_trans hth hcf.2)

end Gergy
